import Mathlib

/-!
Verification of the task-orchestration / event-streaming layer of the
repository: the request-handling protocol state machine
(`DefaultA2ARequestHandler` in
`src/a2a-python-sdk-0515/src/a2a/server/request_handlers/default_request_handler.py`),
the example agent executors
(`examples/weather_agent/agent_executor.py`,
`examples/airbnb_agent copy/agent_executor.py`,
`a2a-adk-app/airbnb_agent/agent_executor.py`) and their helpers
(`examples/weather_agent/helpers.py`).

The Event Queue, Event Consumer, Task Manager, Task Store and response
helper modules are consumed by the code above but their implementations
are not part of this repository; where a claim depends on them they are
modelled from the specification (each such definition carries a
`Modelled from the spec:` doc comment).
-/

namespace A2A

/-- Role of a message author (`a2a.types.Role`). -/
inductive Role where
  | user
  | agent
  deriving DecidableEq, Repr

/-- One message part. The Python `Part` is a union wrapper whose `.root` is a
`TextPart`, `DataPart` or `FilePart`; we keep the text payload and collapse
the non-text variants, which the executors never inspect further. -/
inductive Part where
  | text (t : String)
  | other
  deriving DecidableEq, Repr

/-- Returns true when the part is a `TextPart`. -/
def Part.isText : Part → Bool
  | .text _ => true
  | .other => false

/-- A protocol message (`a2a.types.Message`). -/
structure Message where
  messageId : String
  role : Role
  parts : List Part
  taskId : Option String := none
  contextId : Option String := none
  deriving DecidableEq, Repr

/-- Task states (`a2a.types.TaskState`); `error` is the state string the
weather executor assigns on failure. -/
inductive TaskState where
  | submitted
  | working
  | input_required
  | completed
  | canceled
  | error
  deriving DecidableEq, Repr

/-- Status of a task (`a2a.types.TaskStatus`). -/
structure TaskStatus where
  state : TaskState
  message : Option Message := none
  timestamp : Option String := none
  deriving DecidableEq, Repr

/-- A produced output artifact (`a2a.types.Artifact`). -/
structure Artifact where
  artifactId : String
  parts : List Part
  deriving DecidableEq, Repr

/-- A tracked task (`a2a.types.Task`). `history` and `artifacts` are
`Optional[list]` in Python; `none` and `some []` are distinguished because
the source branches on truthiness, which conflates them. -/
structure Task where
  id : String
  contextId : String
  status : TaskStatus
  history : Option (List Message) := none
  artifacts : Option (List Artifact) := none
  deriving DecidableEq, Repr

/-- History as a plain list (`None` read as empty), for stating invariants. -/
def Task.historyL (t : Task) : List Message := t.history.getD []

/-- Artifacts as a plain list (`None` read as empty). -/
def Task.artifactsL (t : Task) : List Artifact := t.artifacts.getD []

/-- Status-update event (`a2a.types.TaskStatusUpdateEvent`). -/
structure TaskStatusUpdateEvent where
  taskId : String
  contextId : String
  status : TaskStatus
  final : Bool
  deriving DecidableEq, Repr

/-- Artifact-update event (`a2a.types.TaskArtifactUpdateEvent`). -/
structure TaskArtifactUpdateEvent where
  taskId : String
  contextId : String
  artifact : Artifact
  append : Bool
  lastChunk : Bool
  deriving DecidableEq, Repr

/-- The four event variants carried on the Event Queue. -/
inductive Event where
  | task (t : Task)
  | message (m : Message)
  | statusUpdate (e : TaskStatusUpdateEvent)
  | artifactUpdate (e : TaskArtifactUpdateEvent)
  deriving DecidableEq, Repr

/-- Parameters of a send request (`a2a.types.MessageSendParams`). -/
structure MessageSendParams where
  message : Message
  deriving DecidableEq, Repr

/-- Python exception classes raised by the embedded code. -/
inductive PyError where
  | valueError (msg : String)
  | indexError
  | exception (msg : String)
  deriving DecidableEq, Repr

/-- Modelled from the spec: the Task Store is keyed persistence for Task
records with `get(id)` and `save(task)`; `InMemoryTaskStore` is a dict from
task id to Task. We model it as an association list keyed by task id. -/
abbrev TaskStore := List (String × Task)

/-- Modelled from the spec: `TaskStore.get(id)` returns the stored Task or
`None`. -/
def TaskStore.get (s : TaskStore) (id : String) : Option Task :=
  (s.find? (fun p => p.1 == id)).map (fun p => p.2)

/-- Modelled from the spec: `TaskStore.save(task)` stores the task under its
id, overwriting any previous version (dict assignment). -/
def TaskStore.save (s : TaskStore) (t : Task) : TaskStore :=
  if s.any (fun p => p.1 == t.id) then
    s.map (fun p => if p.1 == t.id then (p.1, t) else p)
  else
    s ++ [(t.id, t)]

/-- An agent response dict: keys `content`, `is_task_complete`,
`require_user_input` (the send path only reads the first and last). -/
structure AgentResponse where
  content : String
  is_task_complete : Bool := false
  require_user_input : Bool
  deriving DecidableEq, Repr

/-- Fresh identifiers and the wall-clock reading consumed by one call:
`uuid4()` for a message id and an artifact id, `datetime.now().isoformat()`.
The Python code draws these effectfully; the embedding passes them in. -/
structure Fresh where
  taskId : String := ""
  ctxId : String := ""
  msgId : String := ""
  artId : String := ""
  now : String := ""
  deriving DecidableEq, Repr

/-- The function `update_task_with_agent_response` of
`examples/weather_agent/helpers.py` (functional form of the in-place
mutation): stamps the status timestamp, then either records an
`input_required` status message appended to history, or a `completed`
status with the content appended to artifacts. -/
def update_task_with_agent_response (task : Task) (resp : AgentResponse)
    (f : Fresh) : Task :=
  let parts : List Part := [Part.text resp.content]
  if resp.require_user_input then
    let message : Message := { messageId := f.msgId, role := .agent, parts := parts }
    { task with
      status := { state := .input_required, message := some message,
                  timestamp := some f.now },
      history := some (task.historyL ++ [message]) }
  else
    { task with
      status := { state := .completed, message := none, timestamp := some f.now },
      artifacts := some (task.artifactsL ++ [{ artifactId := f.artId, parts := parts }]) }

/-- The function `process_streaming_agent_response` of
`examples/weather_agent/helpers.py`: classifies one streamed agent response
into an optional artifact-update event and a status-update event. -/
def process_streaming_agent_response (task : Task) (resp : AgentResponse)
    (f : Fresh) : Option TaskArtifactUpdateEvent × TaskStatusUpdateEvent :=
  let parts : List Part := [Part.text resp.content]
  let branch : TaskState × Bool × Option Artifact × Option Message :=
    if !resp.is_task_complete && !resp.require_user_input then
      (.working, false, none,
       some { messageId := f.msgId, role := .agent, parts := parts })
    else if resp.require_user_input then
      (.input_required, true, none,
       some { messageId := f.msgId, role := .agent, parts := parts })
    else
      (.completed, true, some { artifactId := f.artId, parts := parts }, none)
  let task_artifact_update_event : Option TaskArtifactUpdateEvent :=
    branch.2.2.1.map (fun a =>
      { taskId := task.id, contextId := task.contextId, artifact := a,
        append := false, lastChunk := true })
  let task_status_event : TaskStatusUpdateEvent :=
    { taskId := task.id, contextId := task.contextId,
      status := { state := branch.1, message := branch.2.2.2,
                  timestamp := some f.now },
      final := branch.2.1 }
  (task_artifact_update_event, task_status_event)

/-- Modelled from the spec: `a2a.utils.create_task_obj` builds a fresh Task
from send params — id assigned by the caller or generated if absent,
contextId likewise, state `submitted`, history holding the incoming
message. -/
def create_task_obj (params : MessageSendParams) (f : Fresh) : Task :=
  { id := params.message.taskId.getD f.taskId,
    contextId := params.message.contextId.getD f.ctxId,
    status := { state := .submitted },
    history := some [params.message] }

namespace Weather

/-- The method `WeatherAgentExecutor._get_user_query`: rejects a message
with no parts or a non-text first part with `ValueError`, otherwise returns
the first part's text. -/
def getUserQuery (p : MessageSendParams) : Except PyError String :=
  match p.message.parts with
  | [] => .error (.valueError "Message contains no parts.")
  | part :: _ =>
    match part with
    | .text t => .ok t
    | .other => .error (.valueError "Only text parts are supported for user query.")

/-- The shared error branch of `WeatherAgentExecutor.on_message_send` and
`on_message_stream`: set the state string to error and replace the status
message parts with the error text (reusing the existing status message if
there is one, otherwise minting a fresh agent message). -/
def taskWithInternalError (task : Task) (errMsg : String)
    (freshMsgId : String) : Task :=
  let newMsg : Message :=
    match task.status.message with
    | some m => { m with parts := [Part.text errMsg] }
    | none => { messageId := freshMsgId, role := .agent, parts := [Part.text errMsg] }
  { task with status := { task.status with state := .error, message := some newMsg } }

/-- The method `WeatherAgentExecutor.on_message_send`. `agentResult` is the
outcome of `await self.agent.ainvoke(...)` — `Except.error e` models the
call raising with text `e`. Returns the events enqueued on the Event Queue
paired with the exception the method itself raises, if any. -/
def on_message_send (params : MessageSendParams) (task? : Option Task)
    (agentResult : Except String AgentResponse) (f : Fresh) :
    List Event × Option PyError :=
  match getUserQuery params with
  | .error e => ([], some e)
  | .ok _query =>
    let task := match task? with
      | none => create_task_obj params f
      | some t => t
    match agentResult with
    | .ok resp =>
      ([Event.task (update_task_with_agent_response task resp f)], none)
    | .error e =>
      ([Event.task (taskWithInternalError task ("An internal error occurred: " ++ e) f.msgId)], none)

/-- The method `WeatherAgentExecutor.on_message_stream`. `items` are the
responses yielded by `self.agent.stream(...)` before it finished or raised;
`streamErr` is the text of the exception it raised mid-stream, if any.
Returns the events enqueued in order, paired with the exception the method
itself raises, if any. -/
def on_message_stream (params : MessageSendParams) (task? : Option Task)
    (items : List AgentResponse) (streamErr : Option String)
    (fresh : Nat → Fresh) : List Event × Option PyError :=
  match getUserQuery params with
  | .error e => ([], some e)
  | .ok _query =>
    let task := match task? with
      | none => create_task_obj params (fresh 0)
      | some t => t
    let initialEvents : List Event := match task? with
      | none => [Event.task task]
      | some _ => []
    let itemEvents : List Event :=
      (items.enum.map (fun p =>
        let r := process_streaming_agent_response task p.2 (fresh (p.1 + 1))
        (match r.1 with
         | some a => [Event.artifactUpdate a]
         | none => []) ++ [Event.statusUpdate r.2])).flatten
    match streamErr with
    | none => (initialEvents ++ itemEvents, none)
    | some e =>
      (initialEvents ++ itemEvents ++
        [Event.task (taskWithInternalError task
          ("An internal error occurred during streaming: " ++ e)
          (fresh (items.length + 1)).msgId)], none)

end Weather

namespace AirbnbCopy

/-- The method `AirbnbAgentExecutor._get_user_query` of
`examples/airbnb_agent copy/agent_executor.py`: indexes `parts[0]` without
an emptiness check (an empty list raises `IndexError`), then rejects a
non-text first part with `ValueError`. -/
def getUserQuery (p : MessageSendParams) : Except PyError String :=
  match p.message.parts with
  | [] => .error .indexError
  | part :: _ =>
    match part with
    | .text t => .ok t
    | .other => .error (.valueError "Only text parts are supported")

end AirbnbCopy

namespace AirbnbAdk

/-- The method `AirbnbAgentExecutor.cancel` of
`a2a-adk-app/airbnb_agent/agent_executor.py`: unconditionally raises
`Exception("cancel not supported")`, enqueuing nothing. -/
def cancel : List Event × Option PyError :=
  ([], some (.exception "cancel not supported"))

end AirbnbAdk

/-- Structured error kinds surfaced in protocol responses. -/
inductive ErrorKind where
  | taskNotFound
  | unsupportedOperation
  deriving DecidableEq, Repr

/-- A caller-visible protocol response. -/
inductive RpcResponse where
  | success (reqId : String) (payload : Event)
  | error (reqId : String) (err : ErrorKind)
  deriving DecidableEq, Repr

/-- Modelled from the spec: `build_error_response` of
`a2a.server.request_handlers.response_helpers` wraps a structured error
with the request id. -/
def build_error_response (reqId : String) (err : ErrorKind) : RpcResponse :=
  .error reqId err

/-- Modelled from the spec: `prepare_response_object` of
`a2a.server.request_handlers.response_helpers` wraps a result payload
(Task, Message or update event) into a success response carrying the
request id. -/
def prepare_response_object (reqId : String) (payload : Event) : RpcResponse :=
  .success reqId payload

/-- Modelled from the spec: a Task Manager is a transient per-request
coordinator binding a task id and context id to the Task Store. -/
structure TaskManager where
  task_id : Option String
  context_id : Option String

/-- Modelled from the spec: `TaskManager.get_task` returns the currently
persisted Task or `None` if this is a fresh task id. -/
def TaskManager.get_task (tm : TaskManager) (store : TaskStore) : Option Task :=
  tm.task_id.bind store.get

/-- Modelled from the spec: applying a `TaskStatusUpdateEvent` replaces the
task status and appends the status message, if present, to history. -/
def applyStatusUpdate (t : Task) (ev : TaskStatusUpdateEvent) : Task :=
  let history' : Option (List Message) :=
    match ev.status.message with
    | some m => some (t.historyL ++ [m])
    | none => t.history
  { t with status := ev.status, history := history' }

/-- Modelled from the spec: merging an artifact delivered with `append=true`
concatenates its parts onto the stored artifact with the same id, or stores
it whole when no such artifact exists. -/
def mergeArtifact : List Artifact → Artifact → List Artifact
  | [], a => [a]
  | b :: rest, a =>
    if b.artifactId == a.artifactId then
      { b with parts := b.parts ++ a.parts } :: rest
    else
      b :: mergeArtifact rest a

/-- Modelled from the spec: applying a `TaskArtifactUpdateEvent` appends the
artifact, or merges it when the event carries `append=true`. -/
def applyArtifactUpdate (t : Task) (ev : TaskArtifactUpdateEvent) : Task :=
  if ev.append then
    { t with artifacts := some (mergeArtifact t.artifactsL ev.artifact) }
  else
    { t with artifacts := some (t.artifactsL ++ [ev.artifact]) }

/-- Modelled from the spec: the Task Manager applies one event, persisting
every mutation to the Task Store before returning; a Task snapshot is saved
as-is, a Message passes through without persistence, and status/artifact
updates mutate the managed task (created `submitted` if absent). Returns
the updated store and the resulting Task/Message visible to `consume_one`
callers. -/
def TaskManager.applyEvent (tm : TaskManager) (store : TaskStore) :
    Event → TaskStore × Event
  | .task t => (store.save t, .task t)
  | .message m => (store, .message m)
  | .statusUpdate ev =>
    let base := match tm.get_task store with
      | some t => t
      | none =>
        { id := ev.taskId, contextId := ev.contextId,
          status := { state := TaskState.submitted } }
    let t' := applyStatusUpdate base ev
    (store.save t', .task t')
  | .artifactUpdate ev =>
    let base := match tm.get_task store with
      | some t => t
      | none =>
        { id := ev.taskId, contextId := ev.contextId,
          status := { state := TaskState.submitted } }
    let t' := applyArtifactUpdate base ev
    (store.save t', .task t')

/-- Modelled from the spec: `EventConsumer.consume_one` waits for exactly
one event, applies it to the Task Manager (persisting the resulting Task)
and returns the resulting Task/Message; a queue that closes without ever
delivering an event is a consumer failure. -/
def consume_one (tm : TaskManager) (store : TaskStore) (queue : List Event) :
    Except String (TaskStore × Event) :=
  match queue with
  | [] => .error "queue closed before delivering an event"
  | e :: _ => .ok (tm.applyEvent store e)

/-- Modelled from the spec: `EventConsumer.consume_all` dequeues events in
FIFO order until closure; each event is applied to the Task Manager
(persisting state) and the raw event is yielded to the caller. -/
def consume_all (tm : TaskManager) (store : TaskStore) :
    List Event → TaskStore × List Event
  | [] => (store, [])
  | e :: rest =>
    let s1 := (tm.applyEvent store e).1
    let r := consume_all tm s1 rest
    (r.1, e :: r.2)

/-- An Agent Executor as the handler sees it: four hooks, each enqueuing a
list of events on the fresh Event Queue and possibly raising (the
`Option PyError` component). -/
structure AgentExecutorModel where
  on_message_send : MessageSendParams → Option Task → List Event × Option PyError
  on_message_stream : MessageSendParams → Option Task → List Event × Option PyError
  on_cancel : Task → List Event × Option PyError
  on_resubscribe : Task → List Event × Option PyError

/-- Outcome observed when the handler awaits the producer task during
cleanup: it returned, acknowledged cancellation (`asyncio.CancelledError`),
or re-raised the exception it failed with. -/
inductive AwaitOutcome where
  | completed
  | cancelledAck
  | raised (msg : String)
  deriving DecidableEq, Repr

/-- The producer unit (`asyncio.create_task(...)`) as the cleanup block
observes it: whether `done()` already held when cleanup began, and the
outcome an `await` of the task produces. -/
structure ProducerTask where
  doneBeforeCleanup : Bool
  awaitOutcome : AwaitOutcome
  deriving DecidableEq, Repr

/-- Scheduling state of the producer unit after the handler's cleanup. -/
inductive ProdState where
  | running
  | finished
  deriving DecidableEq, Repr

/-- What the cleanup block logged. -/
inductive CleanupLog where
  | noneLog
  | cancelledLog
  | exceptionLog (msg : String)
  deriving DecidableEq, Repr

/-- Result of running a handler's `finally` block. -/
structure CleanupResult where
  producer : ProdState
  cancelRequested : Bool
  log : CleanupLog
  raisedToCaller : Option String
  deriving DecidableEq, Repr

/-- Modelled from the spec: awaiting an asyncio task suspends until it is
finished; afterwards the task is no longer running and the await surfaces
its outcome. -/
def awaitProducer (p : ProducerTask) : ProdState × AwaitOutcome :=
  (.finished, p.awaitOutcome)

/-- Dispatch of the two `except` clauses shared by both streaming `finally`
blocks: `asyncio.CancelledError` is swallowed with an info log, any other
`Exception` is swallowed with an error log; nothing re-raises. -/
def logAwaitOutcome : AwaitOutcome → CleanupLog
  | .completed => .noneLog
  | .cancelledAck => .cancelledLog
  | .raised m => .exceptionLog m

/-- The `finally` block of `DefaultA2ARequestHandler.on_message_send_stream`:
when the producer is not yet done, cancel it, await it, and dispatch on the
outcome; a producer already done is left untouched (done means finished). -/
def streamCleanup (p : ProducerTask) : CleanupResult :=
  if p.doneBeforeCleanup then
    { producer := .finished, cancelRequested := false, log := .noneLog,
      raisedToCaller := none }
  else
    let r := awaitProducer p
    { producer := r.1, cancelRequested := true, log := logAwaitOutcome r.2,
      raisedToCaller := none }

/-- The `finally` block of
`DefaultA2ARequestHandler.on_resubscribe_to_task`: cancel the producer if
it is not done, then await it unconditionally inside the try, dispatching
on the outcome. -/
def resubscribeCleanup (p : ProducerTask) : CleanupResult :=
  let cancelReq := !p.doneBeforeCleanup
  let r := awaitProducer p
  { producer := r.1, cancelRequested := cancelReq, log := logAwaitOutcome r.2,
    raisedToCaller := none }

/-- Reasons the streaming consumer loop can exit: the queue closed normally,
the loop body raised, or the surrounding call was cancelled / the caller
disconnected. -/
inductive StreamExit where
  | completedLoop
  | consumerRaised (msg : String)
  | callerCancelled
  deriving DecidableEq, Repr

/-- Modelled from Python generator semantics: the `finally` block runs on
every exit of the async generator — normal completion, an exception from
the loop, or closure after the caller disconnected — and its behavior does
not depend on the exit reason. -/
def streamCleanupOnExit (_exit : StreamExit) (p : ProducerTask) : CleanupResult :=
  streamCleanup p

/-- Modelled from Python generator semantics: the resubscribe `finally`
block likewise runs on every exit reason. -/
def resubscribeCleanupOnExit (_exit : StreamExit) (p : ProducerTask) : CleanupResult :=
  resubscribeCleanup p

namespace Handler

/-- The method `DefaultA2ARequestHandler.on_get_task`: look the task up in
the Task Store and return it, or a structured task-not-found error. -/
def on_get_task (_ex : AgentExecutorModel) (store : TaskStore)
    (reqId : String) (taskId : String) : TaskStore × RpcResponse :=
  match store.get taskId with
  | none => (store, build_error_response reqId .taskNotFound)
  | some task => (store, prepare_response_object reqId (.task task))

/-- The method `DefaultA2ARequestHandler.on_cancel_task`: look the task up
(absent id yields a structured task-not-found error), invoke the executor's
cancel hook on a fresh queue — an exception it raises propagates, since the
call is awaited outside any try block — then `consume_one`. -/
def on_cancel_task (ex : AgentExecutorModel) (store : TaskStore)
    (reqId : String) (taskId : String) :
    Except PyError (TaskStore × RpcResponse) :=
  match store.get taskId with
  | none => .ok (store, build_error_response reqId .taskNotFound)
  | some task =>
    let tm : TaskManager :=
      { task_id := some task.id, context_id := some task.contextId }
    let hook := ex.on_cancel task
    match hook.2 with
    | some e => .error e
    | none =>
      match consume_one tm store hook.1 with
      | .error msg => .error (.exception msg)
      | .ok r => .ok (r.1, prepare_response_object reqId r.2)

/-- The method `DefaultA2ARequestHandler._append_message_to_task`: append
the incoming message to the task's history (creating the list when history
is `None` or empty) and save the task to the Task Store. -/
def append_message_to_task (store : TaskStore) (task : Task) (m : Message) :
    TaskStore × Task :=
  let task' : Task :=
    match task.history with
    | some (h :: hs) => { task with history := some ((h :: hs) ++ [m]) }
    | _ => { task with history := some [m] }
  (store.save task', task')

/-- The setup phase shared by `on_message_send` and
`on_message_send_stream`: bind a Task Manager to the message's task and
context ids, load the existing task if any, and append the incoming
message to it (persisting) before any executor involvement. -/
def sendSetup (store : TaskStore) (params : MessageSendParams) :
    TaskStore × Option Task :=
  let tm : TaskManager :=
    { task_id := params.message.taskId, context_id := params.message.contextId }
  match tm.get_task store with
  | none => (store, none)
  | some task =>
    let r := append_message_to_task store task params.message
    (r.1, some r.2)

/-- The method `DefaultA2ARequestHandler.on_message_send`: setup, then
invoke the executor's send hook on a fresh queue (an exception it raises
propagates) and `consume_one` for the single result. -/
def on_message_send (ex : AgentExecutorModel) (store : TaskStore)
    (reqId : String) (params : MessageSendParams) :
    Except PyError (TaskStore × RpcResponse) :=
  let tm : TaskManager :=
    { task_id := params.message.taskId, context_id := params.message.contextId }
  let setup := sendSetup store params
  let hook := ex.on_message_send params setup.2
  match hook.2 with
  | some e => .error e
  | none =>
    match consume_one tm setup.1 hook.1 with
    | .error msg => .error (.exception msg)
    | .ok r => .ok (r.1, prepare_response_object reqId r.2)

/-- The consumer loop shared by the two streaming handlers: for each
dequeued event, apply it to the Task Manager (persisting) and immediately
emit the prepared response before touching the rest of the queue. -/
def streamLoop (tm : TaskManager) (reqId : String) (store : TaskStore) :
    List Event → TaskStore × List RpcResponse
  | [] => (store, [])
  | e :: rest =>
    let s1 := (tm.applyEvent store e).1
    let r := streamLoop tm reqId s1 rest
    (r.1, prepare_response_object reqId e :: r.2)

/-- The method `DefaultA2ARequestHandler.on_message_send_stream`: setup as
for send, spawn the executor's stream hook as an independent producer task
writing to a fresh queue, drive the consumer loop over everything the
producer enqueued, and run the cleanup block on exit. -/
def on_message_send_stream (ex : AgentExecutorModel) (store : TaskStore)
    (reqId : String) (params : MessageSendParams) (p : ProducerTask) :
    TaskStore × List RpcResponse × CleanupResult :=
  let tm : TaskManager :=
    { task_id := params.message.taskId, context_id := params.message.contextId }
  let setup := sendSetup store params
  let events := (ex.on_message_stream params setup.2).1
  let r := streamLoop tm reqId setup.1 events
  (r.1, r.2, streamCleanup p)

/-- The method
`DefaultA2ARequestHandler.on_set_task_push_notification_config`: return a
structured unsupported-operation error without touching the store or the
executor. -/
def on_set_task_push_notification_config (_ex : AgentExecutorModel)
    (store : TaskStore) (reqId : String) : TaskStore × RpcResponse :=
  (store, build_error_response reqId .unsupportedOperation)

/-- The method
`DefaultA2ARequestHandler.on_get_task_push_notification_config`: return a
structured unsupported-operation error without touching the store or the
executor. -/
def on_get_task_push_notification_config (_ex : AgentExecutorModel)
    (store : TaskStore) (reqId : String) : TaskStore × RpcResponse :=
  (store, build_error_response reqId .unsupportedOperation)

/-- The method `DefaultA2ARequestHandler.on_resubscribe_to_task`: an absent
task id yields a single structured task-not-found response and spawns no
producer; otherwise spawn the executor's resubscribe hook as the producer
and drive the same consumer loop as streaming send, with its cleanup block
on exit. -/
def on_resubscribe_to_task (ex : AgentExecutorModel) (store : TaskStore)
    (reqId : String) (taskId : String) (p : ProducerTask) :
    TaskStore × List RpcResponse × Option CleanupResult :=
  match store.get taskId with
  | none => (store, [build_error_response reqId .taskNotFound], none)
  | some task =>
    let tm : TaskManager :=
      { task_id := some task.id, context_id := some task.contextId }
    let events := (ex.on_resubscribe task).1
    let r := streamLoop tm reqId store events
    (r.1, r.2, some (resubscribeCleanup p))

end Handler

/-- An executor raising from its cancel hook and otherwise enqueuing
nothing, as `AirbnbAgentExecutor` does. -/
def exCancelRaises : AgentExecutorModel :=
  { on_message_send := fun _ _ => ([], none),
    on_message_stream := fun _ _ => ([], none),
    on_cancel := fun _ => AirbnbAdk.cancel,
    on_resubscribe := fun _ => ([], none) }

/-- An executor whose every hook enqueues a fixed event list. -/
def exConst (evs : List Event) : AgentExecutorModel :=
  { on_message_send := fun _ _ => (evs, none),
    on_message_stream := fun _ _ => (evs, none),
    on_cancel := fun _ => (evs, none),
    on_resubscribe := fun _ => (evs, none) }

/-- The weather executor packaged behind the handler's executor interface,
with the agent outcomes fixed by the parameters. -/
def weatherExecutor (agentResult : Except String AgentResponse)
    (items : List AgentResponse) (streamErr : Option String)
    (f : Fresh) (fresh : Nat → Fresh) : AgentExecutorModel :=
  { on_message_send := fun params task? =>
      Weather.on_message_send params task? agentResult f,
    on_message_stream := fun params task? =>
      Weather.on_message_stream params task? items streamErr fresh,
    on_cancel := fun _ => ([], none),
    on_resubscribe := fun _ => ([], none) }

/-- Whether a `_get_user_query` outcome is a raised `ValueError`. -/
def isValueError : Except PyError String → Bool
  | .error (.valueError _) => true
  | _ => false

/-- The status-message parts of the task carried by the last event of a
stream, when that event is a Task snapshot. -/
def lastTaskStatusMessageParts (evs : List Event) : Option (List Part) :=
  match evs.getLast? with
  | some (Event.task t) => t.status.message.map Message.parts
  | _ => none

/-- A sample user message addressed to task t1 in context c1. -/
def msg0 : Message :=
  { messageId := "m0", role := .user, parts := [Part.text "hello"],
    taskId := some "t1", contextId := some "c1" }

/-- A sample task stored under id t1. -/
def task0 : Task :=
  { id := "t1", contextId := "c1", status := { state := .submitted },
    history := some [msg0] }

/-- A sample store holding exactly task t1. -/
def store0 : TaskStore := [("t1", task0)]

/-- Sample send params wrapping `msg0`. -/
def params0 : MessageSendParams := { message := msg0 }

/-- Sample send params whose message has an empty parts list. -/
def emptyParams : MessageSendParams :=
  { message := { messageId := "m1", role := .user, parts := [],
                 taskId := some "t1", contextId := some "c1" } }

/-- A sample event. -/
def ev0 : Event := .message msg0

/-- A producer observed as already done at cleanup. -/
def pDone : ProducerTask := { doneBeforeCleanup := true, awaitOutcome := .completed }

/-- A sample fresh-identifier supply. -/
def f0 : Fresh :=
  { taskId := "gen-t", ctxId := "gen-c", msgId := "gen-m", artId := "gen-a",
    now := "now0" }

/-- A sample per-index fresh-identifier supply. -/
def fresh0 : Nat → Fresh := fun _ => f0

/-- A sample agent response requiring user input. -/
def resp0 : AgentResponse :=
  { content := "need more", is_task_complete := false, require_user_input := true }

/-! Helper lemmas about the Task Store. -/

theorem TaskStore.get_save (s : TaskStore) (t : Task) (id : String) :
    (s.save t).get id = if id = t.id then some t else s.get id := by
  unfold TaskStore.save TaskStore.get
  by_cases hmem : s.any (fun p => p.1 == t.id)
  · rw [if_pos hmem, List.find?_map]
    have hcomp : ((fun (q : String × Task) => q.1 == id) ∘
        (fun q => if q.1 == t.id then (q.1, t) else q))
        = (fun (q : String × Task) => q.1 == id) := by
      funext q
      by_cases h : q.1 = t.id <;> simp [h]
    rw [hcomp]
    by_cases hid : id = t.id
    · rw [if_pos hid]
      have hsome : (s.find? (fun (q : String × Task) => q.1 == id)).isSome := by
        rw [List.find?_isSome]
        rw [List.any_eq_true] at hmem
        obtain ⟨x, hx, hbx⟩ := hmem
        exact ⟨x, hx, by simpa [hid] using hbx⟩
      obtain ⟨q, hq⟩ := Option.isSome_iff_exists.mp hsome
      have hq1 := List.find?_some hq
      have hq1' : q.1 = t.id := by rw [← hid]; simpa using hq1
      simp [hq, hq1']
    · rw [if_neg hid]
      cases hfind : s.find? (fun (q : String × Task) => q.1 == id) with
      | none => simp
      | some q =>
        have hq1 := List.find?_some hfind
        have hq1' : q.1 = id := by simpa using hq1
        have hne : ¬ q.1 = t.id := by rw [hq1']; exact hid
        simp [hne]
  · rw [if_neg hmem, List.find?_append]
    by_cases hid : id = t.id
    · rw [if_pos hid]
      have hnone : s.find? (fun (q : String × Task) => q.1 == id) = none := by
        rw [List.find?_eq_none]
        intro x hx hbx
        exact hmem (List.any_eq_true.mpr ⟨x, hx, by simpa [← hid] using hbx⟩)
      have hsingle : (List.find? (fun (q : String × Task) => q.1 == id) [(t.id, t)])
          = some (t.id, t) :=
        List.find?_cons_of_pos _ (by simp [hid])
      simp [hnone, hsingle]
    · cases hfind : s.find? (fun (q : String × Task) => q.1 == id) with
      | none => simp [Ne.symm hid, hid]
      | some q => simp [hid]

theorem TaskStore.length_save_of_mem (s : TaskStore) (t : Task)
    (h : s.any (fun p => p.1 == t.id)) : (s.save t).length = s.length := by
  unfold TaskStore.save
  simp [h]

/-- The consumer loop emits exactly the image of the events it consumes, in
order, independent of the store it threads through. -/
theorem streamLoop_out (tm : TaskManager) (reqId : String) :
    ∀ (evs : List Event) (store : TaskStore),
      (Handler.streamLoop tm reqId store evs).2
        = evs.map (prepare_response_object reqId) := by
  intro evs
  induction evs with
  | nil => intro store; rfl
  | cons e rest ih => intro store; simp [Handler.streamLoop, ih]

/-- C9: for every task and agent response, `process_streaming_agent_response`
returns a status event whose final flag holds iff the task is complete or
user input is required; the state is working when neither holds,
input_required when user input is required, completed otherwise; and an
artifact-update event (lastChunk true, append false) is returned iff the
task is complete and user input is not required. -/
theorem claim_c9_streaming_response_classification
    (task : Task) (resp : AgentResponse) (f : Fresh) :
    (process_streaming_agent_response task resp f).2.final
        = (resp.is_task_complete || resp.require_user_input)
    ∧ (process_streaming_agent_response task resp f).2.status.state
        = (if resp.require_user_input then TaskState.input_required
           else if resp.is_task_complete then TaskState.completed
           else TaskState.working)
    ∧ (process_streaming_agent_response task resp f).1
        = (if resp.is_task_complete && !resp.require_user_input then
             some { taskId := task.id, contextId := task.contextId,
                    artifact := { artifactId := f.artId,
                                  parts := [Part.text resp.content] },
                    append := false, lastChunk := true }
           else none) := by
  obtain ⟨c, tc, ru⟩ := resp
  cases tc <;> cases ru <;>
    simp [process_streaming_agent_response]

/-- C8: every set or get push-notification-config request returns a
structured unsupported-operation error, leaves the store unchanged, and the
response depends neither on the executor nor on the store contents. -/
theorem claim_c8_push_config_unsupported
    (ex ex2 : AgentExecutorModel) (store store2 : TaskStore) (reqId : String) :
    Handler.on_set_task_push_notification_config ex store reqId
        = (store, RpcResponse.error reqId .unsupportedOperation)
    ∧ Handler.on_get_task_push_notification_config ex store reqId
        = (store, RpcResponse.error reqId .unsupportedOperation)
    ∧ (Handler.on_set_task_push_notification_config ex store reqId).2
        = (Handler.on_set_task_push_notification_config ex2 store2 reqId).2
    ∧ (Handler.on_get_task_push_notification_config ex store reqId).2
        = (Handler.on_get_task_push_notification_config ex2 store2 reqId).2 :=
  ⟨rfl, rfl, rfl, rfl⟩

/-- C7: on every exit of the streaming consumer loop, both cleanup blocks
leave the producer finished, re-raise nothing, request cancellation exactly
when the producer was still running, and log a cancellation acknowledgement
or any other producer exception; the streaming handler runs this cleanup. -/
theorem claim_c7_cleanup_never_orphans_producer
    (er : StreamExit) (p : ProducerTask) (ex : AgentExecutorModel)
    (store : TaskStore) (reqId : String) (params : MessageSendParams) :
    (streamCleanupOnExit er p).producer = ProdState.finished
    ∧ (resubscribeCleanupOnExit er p).producer = ProdState.finished
    ∧ (streamCleanupOnExit er p).raisedToCaller = none
    ∧ (resubscribeCleanupOnExit er p).raisedToCaller = none
    ∧ (streamCleanupOnExit er p).cancelRequested = !p.doneBeforeCleanup
    ∧ (resubscribeCleanupOnExit er p).cancelRequested = !p.doneBeforeCleanup
    ∧ (streamCleanupOnExit er p).log
        = (if p.doneBeforeCleanup then CleanupLog.noneLog
           else logAwaitOutcome p.awaitOutcome)
    ∧ (resubscribeCleanupOnExit er p).log = logAwaitOutcome p.awaitOutcome
    ∧ (Handler.on_message_send_stream ex store reqId params p).2.2
        = streamCleanupOnExit er p := by
  obtain ⟨d, o⟩ := p
  cases d <;>
    simp [streamCleanupOnExit, resubscribeCleanupOnExit, streamCleanup,
      resubscribeCleanup, awaitProducer, Handler.on_message_send_stream]

/-- C1: the consumer loop of both streaming handlers emits exactly the image
of the enqueued events, in enqueue order, one response per event (so no
event is delivered twice), and after consuming any prefix of the queue it
has already emitted exactly that prefix's responses (event-at-a-time
delivery, no whole-stream buffering); the composed stream and resubscribe
handlers emit the full image of what the executor enqueued. -/
theorem claim_c1_stream_order_and_immediacy :
    (∀ (tm : TaskManager) (reqId : String) (store : TaskStore)
        (evs : List Event) (k : Nat),
      (Handler.streamLoop tm reqId store evs).2
          = evs.map (prepare_response_object reqId)
      ∧ (Handler.streamLoop tm reqId store (evs.take k)).2
          = (evs.take k).map (prepare_response_object reqId))
    ∧ (∀ (ex : AgentExecutorModel) (store : TaskStore) (reqId : String)
        (params : MessageSendParams) (p : ProducerTask),
        (Handler.on_message_send_stream ex store reqId params p).2.1
          = ((ex.on_message_stream params (Handler.sendSetup store params).2).1).map
              (prepare_response_object reqId))
    ∧ (∀ (ex : AgentExecutorModel) (store : TaskStore) (reqId taskId : String)
        (p : ProducerTask) (task : Task), store.get taskId = some task →
        (Handler.on_resubscribe_to_task ex store reqId taskId p).2.1
          = ((ex.on_resubscribe task).1).map (prepare_response_object reqId)) := by
  refine ⟨fun tm reqId store evs k =>
      ⟨streamLoop_out tm reqId evs store, streamLoop_out tm reqId (evs.take k) store⟩,
    ?_, ?_⟩
  · intro ex store reqId params p
    simp [Handler.on_message_send_stream, streamLoop_out]
  · intro ex store reqId taskId p task h
    simp [Handler.on_resubscribe_to_task, h, streamLoop_out]

/-- Witness for C1 at a concrete resubscribe request: task t1 is stored, and
resubscribing emits exactly the image of the single enqueued event. -/
theorem claim_c1_witness :
    store0.get "t1" = some task0
    ∧ (Handler.on_resubscribe_to_task (exConst [ev0]) store0 "r1" "t1" pDone).2.1
        = (((exConst [ev0]).on_resubscribe task0).1).map (prepare_response_object "r1") :=
  ⟨rfl, claim_c1_stream_order_and_immediacy.2.2 (exConst [ev0]) store0 "r1" "t1"
    pDone task0 rfl⟩

/-- C5: a get, cancel or resubscribe request naming a task id absent from
the store returns a structured task-not-found error, leaves the store
unchanged, spawns no producer, and its result does not depend on the
executor. -/
theorem claim_c5_absent_task_is_not_found
    (ex ex2 : AgentExecutorModel) (store : TaskStore) (reqId taskId : String)
    (p : ProducerTask) (h : store.get taskId = none) :
    Handler.on_get_task ex store reqId taskId
        = (store, RpcResponse.error reqId .taskNotFound)
    ∧ Handler.on_cancel_task ex store reqId taskId
        = Except.ok (store, RpcResponse.error reqId .taskNotFound)
    ∧ Handler.on_resubscribe_to_task ex store reqId taskId p
        = (store, [RpcResponse.error reqId .taskNotFound], none)
    ∧ Handler.on_get_task ex store reqId taskId
        = Handler.on_get_task ex2 store reqId taskId
    ∧ Handler.on_cancel_task ex store reqId taskId
        = Handler.on_cancel_task ex2 store reqId taskId
    ∧ Handler.on_resubscribe_to_task ex store reqId taskId p
        = Handler.on_resubscribe_to_task ex2 store reqId taskId p := by
  refine ⟨?_, ?_, ?_, ?_, ?_, ?_⟩ <;>
    simp [Handler.on_get_task, Handler.on_cancel_task,
      Handler.on_resubscribe_to_task, h, build_error_response]

/-- Witness for C5 at a concrete absent id. -/
theorem claim_c5_witness :
    Handler.on_get_task (exConst [ev0]) store0 "r1" "missing"
        = (store0, RpcResponse.error "r1" .taskNotFound)
    ∧ Handler.on_cancel_task (exConst [ev0]) store0 "r1" "missing"
        = Except.ok (store0, RpcResponse.error "r1" .taskNotFound) :=
  have h := claim_c5_absent_task_is_not_found (exConst [ev0]) exCancelRaises
    store0 "r1" "missing" pDone rfl
  ⟨h.1, h.2.1⟩

/-- C6: every task-mutating operation of this repository extends history and
artifacts on the right: `_append_message_to_task` appends exactly the
incoming message and leaves artifacts untouched,
`update_task_with_agent_response` extends history and artifacts by a
(possibly empty) suffix each, and the executors' error path rewrites only
the status, leaving history and artifacts unchanged — nothing is removed,
truncated or reordered. -/
theorem claim_c6_history_artifacts_append_only
    (store : TaskStore) (task : Task) (m : Message) (resp : AgentResponse)
    (f : Fresh) (errMsg freshId : String) :
    ((Handler.append_message_to_task store task m).2.historyL
        = task.historyL ++ [m]
      ∧ (Handler.append_message_to_task store task m).2.artifacts
        = task.artifacts)
    ∧ (∃ hs as,
        (update_task_with_agent_response task resp f).historyL
            = task.historyL ++ hs
        ∧ (update_task_with_agent_response task resp f).artifactsL
            = task.artifactsL ++ as)
    ∧ ((Weather.taskWithInternalError task errMsg freshId).history = task.history
      ∧ (Weather.taskWithInternalError task errMsg freshId).artifacts
        = task.artifacts) := by
  refine ⟨⟨?_, ?_⟩, ?_, ?_, ?_⟩
  · cases hh : task.history with
    | none => simp [Handler.append_message_to_task, Task.historyL, hh]
    | some l =>
      cases l with
      | nil => simp [Handler.append_message_to_task, Task.historyL, hh]
      | cons hd tl => simp [Handler.append_message_to_task, Task.historyL, hh]
  · cases hh : task.history with
    | none => simp [Handler.append_message_to_task, hh]
    | some l =>
      cases l with
      | nil => simp [Handler.append_message_to_task, hh]
      | cons hd tl => simp [Handler.append_message_to_task, hh]
  · by_cases hr : resp.require_user_input
    · exact ⟨[Message.mk f.msgId Role.agent [Part.text resp.content] none none], [],
        by simp [update_task_with_agent_response, hr, Task.historyL,
          Task.artifactsL]⟩
    · exact ⟨[], [Artifact.mk f.artId [Part.text resp.content]],
        by simp [update_task_with_agent_response, hr, Task.historyL,
          Task.artifactsL]⟩
  · rfl
  · rfl

/-- C4: a send request whose message names a task already in the store
appends the incoming message to that task's history (preserving every
message already there), persists the updated task before the Agent Executor
is invoked, hands that updated task to the executor, and creates no new
task — every other store entry is untouched and no id changes occupancy. -/
theorem claim_c4_send_appends_to_existing_task
    (store : TaskStore) (params : MessageSendParams) (tid : String) (task : Task)
    (h1 : params.message.taskId = some tid)
    (h2 : store.get tid = some task)
    (h3 : task.id = tid) :
    ∃ task',
      (Handler.sendSetup store params).2 = some task'
      ∧ task'.historyL = task.historyL ++ [params.message]
      ∧ task'.id = task.id ∧ task'.contextId = task.contextId
      ∧ task'.status = task.status ∧ task'.artifacts = task.artifacts
      ∧ (Handler.sendSetup store params).1 = store.save task'
      ∧ (Handler.sendSetup store params).1.get tid = some task'
      ∧ (∀ id', id' ≠ tid →
          (Handler.sendSetup store params).1.get id' = store.get id')
      ∧ (∀ id', ((Handler.sendSetup store params).1.get id').isSome
          = (store.get id').isSome)
      ∧ (∀ (ex : AgentExecutorModel) (reqId : String),
          Handler.on_message_send ex store reqId params
            = (match (ex.on_message_send params (some task')).2 with
               | some e => Except.error e
               | none =>
                 match consume_one
                     { task_id := params.message.taskId,
                       context_id := params.message.contextId }
                     (store.save task') (ex.on_message_send params (some task')).1 with
                 | .error msg => Except.error (.exception msg)
                 | .ok r => Except.ok (r.1, prepare_response_object reqId r.2))) := by
  have hget : TaskManager.get_task
      { task_id := params.message.taskId, context_id := params.message.contextId }
      store = some task := by
    simp [TaskManager.get_task, h1, h2]
  have hsetup : Handler.sendSetup store params
      = ((Handler.append_message_to_task store task params.message).1,
         some (Handler.append_message_to_task store task params.message).2) := by
    unfold Handler.sendSetup
    simp only [hget]
  have happ1 : (Handler.append_message_to_task store task params.message).1
      = store.save (Handler.append_message_to_task store task params.message).2 := rfl
  have hid2 : (Handler.append_message_to_task store task params.message).2.id
      = task.id := by
    cases hh : task.history with
    | none => simp [Handler.append_message_to_task, hh]
    | some l => cases l <;> simp [Handler.append_message_to_task, hh]
  have hidt : (Handler.append_message_to_task store task params.message).2.id
      = tid := hid2.trans h3
  refine ⟨(Handler.append_message_to_task store task params.message).2,
    by rw [hsetup], ?_, hid2, ?_, ?_, ?_, ?_, ?_, ?_, ?_, ?_⟩
  · cases hh : task.history with
    | none => simp [Handler.append_message_to_task, Task.historyL, hh]
    | some l =>
      cases l <;> simp [Handler.append_message_to_task, Task.historyL, hh]
  · cases hh : task.history with
    | none => simp [Handler.append_message_to_task, hh]
    | some l => cases l <;> simp [Handler.append_message_to_task, hh]
  · cases hh : task.history with
    | none => simp [Handler.append_message_to_task, hh]
    | some l => cases l <;> simp [Handler.append_message_to_task, hh]
  · cases hh : task.history with
    | none => simp [Handler.append_message_to_task, hh]
    | some l => cases l <;> simp [Handler.append_message_to_task, hh]
  · rw [hsetup]
    exact happ1
  · rw [hsetup]
    show ((Handler.append_message_to_task store task params.message).1).get tid = _
    rw [happ1, TaskStore.get_save, if_pos hidt.symm]
  · intro id' hne
    rw [hsetup]
    show ((Handler.append_message_to_task store task params.message).1).get id' = _
    rw [happ1, TaskStore.get_save, if_neg (by rw [hidt]; exact hne)]
  · intro id'
    rw [hsetup]
    show (((Handler.append_message_to_task store task params.message).1).get id').isSome
      = _
    rw [happ1, TaskStore.get_save]
    by_cases hcase : id' = tid
    · rw [if_pos (by rw [hidt]; exact hcase), hcase, h2]
      rfl
    · rw [if_neg (by rw [hidt]; exact hcase)]
  · intro ex reqId
    unfold Handler.on_message_send
    rw [hsetup]
    simp only [happ1]

/-- Witness for C4: with task t1 stored, a second send with its taskId
appends to the existing history. -/
theorem claim_c4_witness :
    params0.message.taskId = some "t1" ∧ store0.get "t1" = some task0
    ∧ task0.id = "t1"
    ∧ ∃ task', (Handler.sendSetup store0 params0).2 = some task'
        ∧ task'.historyL = task0.historyL ++ [params0.message] := by
  refine ⟨rfl, rfl, rfl, ?_⟩
  obtain ⟨t', ha, hb, _⟩ :=
    claim_c4_send_appends_to_existing_task store0 params0 "t1" task0 rfl rfl rfl
  exact ⟨t', ha, hb⟩

/-- The error branch shared by both weather executor paths produces a task
in the error state whose status message parts hold exactly the error
text. -/
theorem taskWithInternalError_spec (t : Task) (errMsg fid : String) :
    (Weather.taskWithInternalError t errMsg fid).status.state = TaskState.error
    ∧ (Weather.taskWithInternalError t errMsg fid).status.message.map Message.parts
        = some [Part.text errMsg]
    ∧ (Weather.taskWithInternalError t errMsg fid).id = t.id := by
  unfold Weather.taskWithInternalError
  cases t.status.message <;> simp

/-- On an agent exception, the weather send path enqueues exactly one error
Task event and raises nothing. -/
theorem weather_send_err (params : MessageSendParams) (task? : Option Task)
    (e : String) (f : Fresh) (q : String)
    (hq : Weather.getUserQuery params = Except.ok q) :
    Weather.on_message_send params task? (Except.error e) f
      = ([Event.task (Weather.taskWithInternalError
            (task?.getD (create_task_obj params f))
            ("An internal error occurred: " ++ e) f.msgId)], none) := by
  cases task? <;> simp [Weather.on_message_send, hq]

/-- On a mid-stream agent exception, the weather stream path raises nothing
and its last enqueued event is the error Task snapshot. -/
theorem weather_stream_err (params : MessageSendParams) (task? : Option Task)
    (items : List AgentResponse) (e : String) (fresh : Nat → Fresh) (q : String)
    (hq : Weather.getUserQuery params = Except.ok q) :
    (Weather.on_message_stream params task? items (some e) fresh).2 = none
    ∧ (Weather.on_message_stream params task? items (some e) fresh).1.getLast?
        = some (Event.task (Weather.taskWithInternalError
            (task?.getD (create_task_obj params (fresh 0)))
            ("An internal error occurred during streaming: " ++ e)
            (fresh (items.length + 1)).msgId)) := by
  cases task? with
  | none =>
    constructor
    · simp [Weather.on_message_stream, hq]
    · simp [Weather.on_message_stream, hq, List.getLast?_concat]
      rw [← List.cons_append, List.getLast?_concat]
  | some t0 =>
    constructor
    · simp [Weather.on_message_stream, hq]
    · simp [Weather.on_message_stream, hq, List.getLast?_concat]

/-- When the queue ends with a Task snapshot, the consumer loop's final
store holds that snapshot under its id. -/
theorem getLast?_task_streamLoop (tm : TaskManager) (reqId : String) :
    ∀ (evs : List Event) (store : TaskStore) (t : Task),
      evs.getLast? = some (Event.task t) →
      ((Handler.streamLoop tm reqId store evs).1).get t.id = some t := by
  intro evs
  induction evs with
  | nil => intro store t h; simp at h
  | cons e rest ih =>
    intro store t h
    cases hr : rest with
    | nil =>
      subst hr
      simp at h
      subst h
      simp [Handler.streamLoop, TaskManager.applyEvent, TaskStore.get_save]
    | cons e2 rest2 =>
      subst hr
      rw [List.getLast?_cons_cons] at h
      have hrec := ih ((TaskManager.applyEvent tm store e).1) t h
      simpa [Handler.streamLoop] using hrec

/-- C2 counterexample: with task t1 stored, a cancel through the default
handler with the Airbnb executor propagates the executor's exception to the
transport caller instead of delivering a well-formed failed Task. -/
theorem claim_c2_counterexample :
    store0.get "t1" = some task0
    ∧ Handler.on_cancel_task exCancelRaises store0 "r1" "t1"
        = Except.error (PyError.exception "cancel not supported") :=
  ⟨rfl, rfl⟩

/-- C2 (amended): for send and stream requests an Agent Executor exception
during agent execution is folded into an error-state Task with the
exception text inside the status message and is not re-raised — the stream
executor finishes normally with the error Task as its last enqueued event,
and the send caller receives a well-formed success response carrying the
failed Task, persisted in the store; but for cancel requests an exception
from the executor's cancel hook propagates to the transport caller. -/
theorem claim_c2_amended_error_folded_except_cancel
    (params : MessageSendParams) (task? : Option Task) (e q : String)
    (f : Fresh) (fresh : Nat → Fresh) (items : List AgentResponse)
    (store : TaskStore) (reqId tid : String) (task : Task)
    (exc : AgentExecutorModel) (err : PyError)
    (hq : Weather.getUserQuery params = Except.ok q)
    (hstore : store.get tid = some task)
    (hc : exc.on_cancel task = ([], some err)) :
    (∃ t, Weather.on_message_send params task? (Except.error e) f
        = ([Event.task t], none)
      ∧ t.status.state = TaskState.error
      ∧ t.status.message.map Message.parts
          = some [Part.text ("An internal error occurred: " ++ e)])
    ∧ (∃ t, (Weather.on_message_stream params task? items (some e) fresh).2 = none
      ∧ (Weather.on_message_stream params task? items (some e) fresh).1.getLast?
          = some (Event.task t)
      ∧ t.status.state = TaskState.error
      ∧ t.status.message.map Message.parts
          = some [Part.text ("An internal error occurred during streaming: " ++ e)])
    ∧ (∃ t s2, Handler.on_message_send
          (weatherExecutor (Except.error e) items none f fresh)
          store reqId params
        = Except.ok (s2, RpcResponse.success reqId (Event.task t))
      ∧ t.status.state = TaskState.error
      ∧ s2.get t.id = some t)
    ∧ Handler.on_cancel_task exc store reqId tid = Except.error err := by
  refine ⟨?_, ?_, ?_, ?_⟩
  · obtain ⟨hstate, hmsg, _⟩ := taskWithInternalError_spec
      (task?.getD (create_task_obj params f))
      ("An internal error occurred: " ++ e) f.msgId
    exact ⟨_, weather_send_err params task? e f q hq, hstate, hmsg⟩
  · obtain ⟨h2none, hlast⟩ := weather_stream_err params task? items e fresh q hq
    obtain ⟨hstate, hmsg, _⟩ := taskWithInternalError_spec
      (task?.getD (create_task_obj params (fresh 0)))
      ("An internal error occurred during streaming: " ++ e)
      (fresh (items.length + 1)).msgId
    exact ⟨_, h2none, hlast, hstate, hmsg⟩
  · have hhook : (weatherExecutor (Except.error e) items none f fresh).on_message_send
        params (Handler.sendSetup store params).2
        = ([Event.task (Weather.taskWithInternalError
            ((Handler.sendSetup store params).2.getD (create_task_obj params f))
            ("An internal error occurred: " ++ e) f.msgId)], none) :=
      weather_send_err params (Handler.sendSetup store params).2 e f q hq
    refine ⟨Weather.taskWithInternalError
        ((Handler.sendSetup store params).2.getD (create_task_obj params f))
        ("An internal error occurred: " ++ e) f.msgId,
      ((Handler.sendSetup store params).1).save (Weather.taskWithInternalError
        ((Handler.sendSetup store params).2.getD (create_task_obj params f))
        ("An internal error occurred: " ++ e) f.msgId),
      ?_,
      (taskWithInternalError_spec _ _ _).1, ?_⟩
    · unfold Handler.on_message_send
      simp only [hhook, consume_one, TaskManager.applyEvent, prepare_response_object]
    · rw [TaskStore.get_save]
      simp
  · unfold Handler.on_cancel_task
    simp only [hstore, hc]

/-- Witness for C2 at concrete inputs: the cancel exception propagates,
while the send and stream exceptions are folded into error Tasks. -/
theorem claim_c2_witness :
    Handler.on_cancel_task exCancelRaises store0 "r2" "t1"
      = Except.error (PyError.exception "cancel not supported")
    ∧ (∃ t, Weather.on_message_send params0 none (Except.error "boom") f0
        = ([Event.task t], none)
      ∧ t.status.state = TaskState.error)
    ∧ (∃ t, (Weather.on_message_stream params0 none [] (some "boom") fresh0).2 = none
      ∧ (Weather.on_message_stream params0 none [] (some "boom") fresh0).1.getLast?
          = some (Event.task t)
      ∧ t.status.state = TaskState.error) := by
  have h := claim_c2_amended_error_folded_except_cancel params0 none "boom" "hello"
    f0 fresh0 [] store0 "r2" "t1" task0 exCancelRaises
    (PyError.exception "cancel not supported") rfl rfl rfl
  refine ⟨h.2.2.2, h.1.elim fun t ht => ⟨t, ht.1, ht.2.1⟩,
    h.2.1.elim fun t ht => ⟨t, ht.1, ht.2.1, ht.2.2.1⟩⟩

/-- C3 counterexample: when the agent raises with text boom, the task's
status message is the prefixed internal-error text, not the raised error's
description itself. -/
theorem claim_c3_counterexample :
    lastTaskStatusMessageParts
        (Weather.on_message_stream params0 none [] (some "boom") fresh0).1
      = some [Part.text "An internal error occurred during streaming: boom"]
    ∧ some [Part.text ("An internal error occurred during streaming: boom")]
      ≠ some [Part.text "boom"] :=
  ⟨rfl, by decide⟩

/-- C3 (amended): on a mid-stream Agent Executor exception the producer
raises nothing further (it finishes after enqueuing the error snapshot), the
stream's last event — and the handler's last emitted response — carry a Task
in the error state whose status message is the internal-error prefix
followed by the raised error's text, that task is persisted in the final
store, and cleanup leaves the producer finished on every exit path. -/
theorem claim_c3_amended_stream_error_terminates
    (params : MessageSendParams) (items : List AgentResponse) (e q : String)
    (fresh : Nat → Fresh) (f : Fresh) (store : TaskStore) (reqId : String)
    (p : ProducerTask) (er : StreamExit)
    (hq : Weather.getUserQuery params = Except.ok q) :
    ∃ t,
      (Weather.on_message_stream params (Handler.sendSetup store params).2
          items (some e) fresh).2 = none
      ∧ (Weather.on_message_stream params (Handler.sendSetup store params).2
          items (some e) fresh).1.getLast? = some (Event.task t)
      ∧ t.status.state = TaskState.error
      ∧ t.status.message.map Message.parts
          = some [Part.text ("An internal error occurred during streaming: " ++ e)]
      ∧ (Handler.on_message_send_stream
            (weatherExecutor (Except.error e) items (some e) f fresh)
            store reqId params p).2.1.getLast?
          = some (prepare_response_object reqId (Event.task t))
      ∧ ((Handler.on_message_send_stream
            (weatherExecutor (Except.error e) items (some e) f fresh)
            store reqId params p).1).get t.id = some t
      ∧ (Handler.on_message_send_stream
            (weatherExecutor (Except.error e) items (some e) f fresh)
            store reqId params p).2.2.producer = ProdState.finished
      ∧ (streamCleanupOnExit er p).producer = ProdState.finished := by
  obtain ⟨h2none, hlast⟩ := weather_stream_err params
    (Handler.sendSetup store params).2 items e fresh q hq
  refine ⟨Weather.taskWithInternalError
      ((Handler.sendSetup store params).2.getD (create_task_obj params (fresh 0)))
      ("An internal error occurred during streaming: " ++ e)
      (fresh (items.length + 1)).msgId,
    h2none, hlast, (taskWithInternalError_spec _ _ _).1,
    (taskWithInternalError_spec _ _ _).2.1, ?_, ?_, ?_, ?_⟩
  · have hresp : (Handler.on_message_send_stream
        (weatherExecutor (Except.error e) items (some e) f fresh)
        store reqId params p).2.1
        = ((Weather.on_message_stream params (Handler.sendSetup store params).2
            items (some e) fresh).1).map (prepare_response_object reqId) := by
      simp [Handler.on_message_send_stream, streamLoop_out, weatherExecutor]
    rw [hresp, List.getLast?_map, hlast]
    rfl
  · exact getLast?_task_streamLoop
      { task_id := params.message.taskId, context_id := params.message.contextId }
      reqId _ (Handler.sendSetup store params).1 _ hlast
  · obtain ⟨d, o⟩ := p
    cases d <;>
      simp [Handler.on_message_send_stream, streamCleanup, awaitProducer]
  · obtain ⟨d, o⟩ := p
    cases d <;>
      simp [streamCleanupOnExit, streamCleanup, awaitProducer]

/-- Witness for C3 at concrete inputs. -/
theorem claim_c3_witness :
    ∃ t,
      (Weather.on_message_stream params0 (Handler.sendSetup store0 params0).2
          [] (some "boom") fresh0).2 = none
      ∧ (Weather.on_message_stream params0 (Handler.sendSetup store0 params0).2
          [] (some "boom") fresh0).1.getLast? = some (Event.task t)
      ∧ t.status.state = TaskState.error := by
  obtain ⟨t, h1, h2, h3, _⟩ := claim_c3_amended_stream_error_terminates
    params0 [] "boom" "hello" fresh0 f0 store0 "r3" pDone .completedLoop rfl
  exact ⟨t, h1, h2, h3⟩

/-- C10 counterexample: the airbnb-copy `_get_user_query` applied to a
message with an empty parts list raises IndexError, not ValueError. -/
theorem claim_c10_counterexample :
    emptyParams.message.parts = []
    ∧ AirbnbCopy.getUserQuery emptyParams = Except.error PyError.indexError
    ∧ isValueError (AirbnbCopy.getUserQuery emptyParams) = false :=
  ⟨rfl, rfl, rfl⟩

/-- C10 (amended): the weather `_get_user_query` raises ValueError exactly
when the parts list is empty or its first part is not a TextPart and
otherwise returns the first part's text, and a failing check makes either
executor hook raise before enqueuing any event; the airbnb-copy variant
raises ValueError only for a non-text first part and fails with IndexError
on an empty parts list. -/
theorem claim_c10_amended_get_user_query (params : MessageSendParams) :
    (isValueError (Weather.getUserQuery params) = true
      ↔ (params.message.parts = []
          ∨ params.message.parts.head?.map Part.isText = some false))
    ∧ (∀ t rest, params.message.parts = Part.text t :: rest →
        Weather.getUserQuery params = Except.ok t)
    ∧ (∀ e task? agentResult f, Weather.getUserQuery params = Except.error e →
        Weather.on_message_send params task? agentResult f = ([], some e))
    ∧ (∀ e task? items serr fresh, Weather.getUserQuery params = Except.error e →
        Weather.on_message_stream params task? items serr fresh = ([], some e))
    ∧ (params.message.parts = [] →
        AirbnbCopy.getUserQuery params = Except.error PyError.indexError)
    ∧ (∀ pt rest, params.message.parts = pt :: rest → Part.isText pt = false →
        AirbnbCopy.getUserQuery params
          = Except.error (PyError.valueError "Only text parts are supported")) := by
  refine ⟨?_, ?_, ?_, ?_, ?_, ?_⟩
  · cases hp : params.message.parts with
    | nil => simp [Weather.getUserQuery, hp, isValueError]
    | cons pt rest =>
      cases pt <;> simp [Weather.getUserQuery, hp, isValueError, Part.isText]
  · intro t rest hp
    simp [Weather.getUserQuery, hp]
  · intro e task? agentResult f hq
    simp [Weather.on_message_send, hq]
  · intro e task? items serr fresh hq
    simp [Weather.on_message_stream, hq]
  · intro hp
    simp [AirbnbCopy.getUserQuery, hp]
  · intro pt rest hp hnt
    cases pt with
    | text t => simp [Part.isText] at hnt
    | other => simp [AirbnbCopy.getUserQuery, hp]

/-- Witness for C10: a message with no parts makes the weather executor
raise ValueError and enqueue nothing. -/
theorem claim_c10_witness :
    Weather.getUserQuery emptyParams
      = Except.error (PyError.valueError "Message contains no parts.")
    ∧ Weather.on_message_send emptyParams none (Except.error "x") f0
      = ([], some (PyError.valueError "Message contains no parts.")) := by
  have h := claim_c10_amended_get_user_query emptyParams
  have hq : Weather.getUserQuery emptyParams
      = Except.error (PyError.valueError "Message contains no parts.") := rfl
  exact ⟨hq, h.2.2.1 _ none (Except.error "x") f0 hq⟩

end A2A
